import Mathlib

/-!
Shallow embedding of the Farm-Easy Flask application (`app.py`) and proofs
about its registration, login, crop-listing and prediction handlers.

Conventions of the embedding:
* Form data arriving in a request is `Option String` (a missing field is
  `none`, mirroring `request.form.get(name)` returning `None`; where the
  source uses `request.form.get(name, "")` the default is applied with
  `Option.getD ""`).
* The SQLAlchemy user table is a list of `User` rows; `User.query.filter_by
  (username=...).first()` is `List.find?` on that list.
* Werkzeug's salted password hashing is modelled by its documented contract:
  `check_password_hash (generate_password_hash p) q` succeeds exactly when
  `q = p`.  The salt is irrelevant to every property proved here, so the
  hash value is represented by the password it verifies.
* Exceptions are modelled with `Option`/`Except`: an operation that can
  raise returns `Option`/`Except`, and the `try/except` blocks of the
  source become pattern matches on those values.
-/

deriving instance DecidableEq for Except

namespace FarmEasy

/-! ### Python string primitives -/

/-- Python whitespace characters stripped by `str.strip()` (and by
`float()` around its argument); the source never feeds non-ASCII
whitespace, so the ASCII set suffices. -/
def pyIsSpace (c : Char) : Bool :=
  c = ' ' || c = '\t' || c = '\n' || c = '\x0d' || c = '\x0b' || c = '\x0c'

/-- `str.strip()` on a character list: drop whitespace from both ends. -/
def stripChars (l : List Char) : List Char :=
  ((l.dropWhile pyIsSpace).reverse.dropWhile pyIsSpace).reverse

/-- Python `s.strip()` for strings (default, whitespace-stripping form),
as used on submitted usernames in `register` and `login`. -/
def strip (s : String) : String :=
  String.mk (stripChars s.data)

/-! ### Werkzeug password hashing, by its contract -/

/-- A werkzeug password hash.  `generate_password_hash` is salted, so the
stored string differs per call; all that the application observes is which
passwords verify, so the model records the verifying password. -/
structure PasswordHash where
  verifies : String
deriving DecidableEq, Repr

/-- `werkzeug.security.generate_password_hash`. -/
def generate_password_hash (password : String) : PasswordHash :=
  ⟨password⟩

/-- `werkzeug.security.check_password_hash`. -/
def check_password_hash (h : PasswordHash) (password : String) : Bool :=
  h.verifies = password

/-! ### The user table -/

/-- A row of the `User` model: integer primary key, unique username and the
hashed password. -/
structure User where
  id : Nat
  username : String
  password : PasswordHash
deriving DecidableEq, Repr

/-- The SQLite user table. -/
abbrev Store := List User

/-- `User.query.filter_by(username=u).first()`. -/
def queryByUsername (s : Store) (u : String) : Option User :=
  s.find? (fun r => r.username = u)

/-! ### Flask responses -/

/-- A crop record of the static `CROPS` dictionary (all 22 entries carry
all eight keys). -/
structure CropRecord where
  img : String
  description : String
  soil : String
  temperature : String
  rainfall : String
  pH : String
  benefits : String
  notes : String
deriving DecidableEq, Repr

/-- The body of an HTTP response produced by a handler: a redirect to a
location, the rendering of one of the templates (with the data the
template receives), or — when an exception escapes the handler, which has
no surrounding `try` — the framework's generic 500 error page. -/
inductive Resp where
  | redirect (location : String)
  | renderHome
  | renderRegister
  | renderLogin
  | renderCrops (crops : List (String × CropRecord))
  | renderPredict (prediction : Option String)
  | unhandledError
deriving DecidableEq, Repr

/-- `url_for` for the application's endpoints: the route `/` is `home`,
every other endpoint's rule is a slash followed by its function name. -/
def url_for (endpoint : String) : String :=
  if endpoint = "home" then "/" else "/" ++ endpoint

/-- What a handler returns: the flashed `(message, category)` pairs and the
response. -/
structure WebOut where
  flashes : List (String × String)
  resp : Resp
deriving DecidableEq, Repr

/-! ### The register handler (POST branch) -/

/-- POST `/register`: strip the username, reject missing fields, reject an
existing username (redirecting to login), otherwise hash and insert.
Returns the response together with the user table after the request. -/
def registerPost (store : Store) (usernameField passwordField : Option String) :
    WebOut × Store :=
  let username := strip (usernameField.getD "")
  let password := passwordField.getD ""
  if username = "" || password = "" then
    (⟨[("Provide username and password", "warning")], .redirect (url_for "register")⟩, store)
  else if (queryByUsername store username).isSome then
    (⟨[("User exists, login instead.", "warning")], .redirect (url_for "login")⟩, store)
  else
    let hashed := generate_password_hash password
    let u : User := ⟨store.length, username, hashed⟩
    (⟨[("Registered. Please login.", "success")], .redirect (url_for "login")⟩, store ++ [u])

/-! ### Python truthiness helpers for the login handler -/

/-- Python `a or b` for two optional strings (`None` and `""` are falsy),
as in `next_page = next_from_form or next_from_query`. -/
def pyOrOpt (a b : Option String) : Option String :=
  match a with
  | some s => if s = "" then b else some s
  | none => b

/-! ### `urllib.parse`: the pieces used by `is_safe_url`

`urlsplitD`, `urlunsplit` and `urljoin` follow the CPython (3.11+, the
current supported line) implementations of `urlsplit`, `urlunsplit` and
`urljoin` in `urllib/parse.py`, working on character lists:

* `urlsplit` first lstrips WHATWG C0-control-or-space characters and
  removes every tab, CR and LF from the URL;
* it raises `ValueError` (modelled as `Except.error`) on a netloc with an
  unbalanced `[`/`]`, and — via `_check_bracketed_host`, through
  `ipaddress` — on a bracketed host that is neither a valid IPv6 address
  (optionally with a `%scope`) nor a valid `v<hex>.<text>` IPvFuture
  literal, or that is an IPv4 address;
* `_checknetloc`, which can also raise, only inspects netlocs containing
  non-ASCII characters (NFKC normalization); it is not modelled, and the
  theorems that depend on URL handling therefore carry an ASCII
  hypothesis on the strings fed to it, under which it is a no-op.

The source calls `urlparse`/`urljoin`, which additionally split
`;parameters` off the last path segment; no URL handled by the application
contains `;`, and the parameter split never affects the scheme or netloc
that `is_safe_url` inspects, so the split-level model is used. -/

/-- Characters allowed in a URL scheme after the initial letter. -/
def schemeChar (c : Char) : Bool :=
  c.isAlphanum || c = '+' || c = '-' || c = '.'

/-- Break a list at the first occurrence of `c`, dropping it: the model of
`str.find(c)` plus slicing / `str.split(c, 1)`. -/
def breakAtChar (c : Char) : List Char → Option (List Char × List Char)
  | [] => none
  | x :: xs =>
      if x = c then some ([], xs)
      else (breakAtChar c xs).map (fun p => (x :: p.1, p.2))

/-- Python `s.partition(c)[2]`-style: everything after the first `c`
(empty when `c` does not occur). -/
def afterFirst (c : Char) (l : List Char) : List Char :=
  match breakAtChar c l with
  | some (_, rest) => rest
  | none => []

/-- Python `s.partition(c)[0]`-style: everything before the first `c`
(the whole list when `c` does not occur). -/
def beforeFirst (c : Char) (l : List Char) : List Char :=
  match breakAtChar c l with
  | some (pre, _) => pre
  | none => l

/-- A character ending the netloc portion of a URL. -/
def netlocEnd (c : Char) : Bool :=
  c = '/' || c = '?' || c = '#'

/-- WHATWG C0 controls and space, lstripped from a URL by `urlsplit`. -/
def C0ControlOrSpace (c : Char) : Bool :=
  c.toNat ≤ 0x20

/-- The unsafe URL bytes `urlsplit` removes everywhere: tab, CR, LF. -/
def unsafeURLByte (c : Char) : Bool :=
  c = '\t' || c = '\x0d' || c = '\n'

/-- Python `s.split(c)` on character lists (always at least one piece). -/
def splitOnChar (c : Char) : List Char → List (List Char)
  | [] => [[]]
  | x :: xs =>
      let r := splitOnChar c xs
      if x = c then [] :: r
      else
        match r with
        | h :: t => (x :: h) :: t
        | [] => [[x]]

/-- Python `c.join(pieces)` on character lists. -/
def joinWithChar (c : Char) : List (List Char) → List Char
  | [] => []
  | [x] => x
  | x :: xs => x ++ c :: joinWithChar c xs

/-- An ASCII hexadecimal digit. -/
def isHexDigitChar (c : Char) : Bool :=
  c.isDigit || ('a' ≤ c && c ≤ 'f') || ('A' ≤ c && c ≤ 'F')

/-- Numeric value of a decimal digit run. -/
def digitsVal (ds : List Char) : Nat :=
  ds.foldl (fun a c => a * 10 + (c.toNat - 48)) 0

/-- `ipaddress._parse_hextet` validity: one to four hex digits. -/
def isValidHextet (p : List Char) : Bool :=
  decide (1 ≤ p.length) && decide (p.length ≤ 4) && p.all isHexDigitChar

/-- `ipaddress._parse_octet` validity: one to three ASCII digits, no
leading zero (except `0` itself), value at most 255. -/
def isValidOctet (p : List Char) : Bool :=
  p.all Char.isDigit && decide (1 ≤ p.length) && decide (p.length ≤ 3)
    && (decide (p = ['0']) || decide (p.take 1 ≠ ['0'])) && decide (digitsVal p ≤ 255)

/-- `ipaddress.IPv4Address` validity: exactly four valid octets. -/
def isValidIPv4 (s : List Char) : Bool :=
  let octets := splitOnChar '.' s
  decide (octets.length = 4) && octets.all isValidOctet

/-- The dotted-quad tail step of `IPv6Address._ip_int_from_string`: a last
part containing `.` must be a valid IPv4 address and is replaced by its
two hextet halves (validity placeholders here, the value is unused). -/
def ipv6ExpandIPv4 (parts : List (List Char)) : Option (List (List Char)) :=
  match parts.getLast? with
  | none => none
  | some lastPart =>
      if '.' ∈ lastPart then
        if isValidIPv4 lastPart then some (parts.dropLast ++ [['0'], ['0']])
        else none
      else some parts

/-- `IPv6Address._ip_int_from_string` validity for an address without a
scope id: colon-separated hextets, at most one `::` run, leading/trailing
lone `:` only as part of `::`, eight groups in total. -/
def isValidIPv6NoScope (s : List Char) : Bool :=
  if s = [] then false
  else
    let parts0 := splitOnChar ':' s
    if parts0.length < 3 then false
    else
      match ipv6ExpandIPv4 parts0 with
      | none => false
      | some parts =>
          if parts.length > 9 then false
          else
            let n := parts.length
            let interior := (parts.drop 1).dropLast
            match interior.findIdx? (fun p => p = []) with
            | some i =>
                if ((interior.drop (i + 1)).filter (fun p => p = [])).length ≠ 0 then
                  false
                else
                  let skipIdx := i + 1
                  let partsHi := if parts.take 1 = [[]] then skipIdx - 1 else skipIdx
                  let partsLo :=
                    if parts.getLast? = some [] then n - skipIdx - 2 else n - skipIdx - 1
                  if parts.take 1 = [[]] ∧ partsHi ≠ 0 then false
                  else if parts.getLast? = some [] ∧ partsLo ≠ 0 then false
                  else if 8 - (partsHi + partsLo) < 1 then false
                  else (parts.take partsHi).all isValidHextet
                    && (parts.drop (n - partsLo)).all isValidHextet
            | none =>
                decide (n = 8) && decide (parts.take 1 ≠ [[]])
                  && decide (parts.getLast? ≠ some []) && parts.all isValidHextet

/-- `urllib.parse._check_bracketed_host` (CPython 3.11+): a bracketed host
must be a `v<hex>.<text>` IPvFuture literal or parse as an IPv6 address
(optionally carrying one non-empty `%scope`); an IPv4 address or anything
else raises. -/
def isValidBracketedHost (h : List Char) : Bool :=
  match h with
  | 'v' :: rest =>
      match breakAtChar '.' rest with
      | some (pre, post) =>
          decide (pre ≠ []) && pre.all isHexDigitChar && decide (post ≠ [])
      | none => false
  | _ =>
      if isValidIPv4 h then false
      else
        match breakAtChar '%' h with
        | some (addr, scope) =>
            decide (scope ≠ []) && decide ('%' ∉ scope) && isValidIPv6NoScope addr
        | none => isValidIPv6NoScope h

/-- The result of `urlsplit`: scheme, netloc, path, query, fragment. -/
structure SplitUrl where
  scheme : List Char
  netloc : List Char
  path : List Char
  query : List Char
  fragment : List Char
deriving DecidableEq, Repr

/-- The fragment split at the first `#` followed by the query split at the
first `?`, shared by the two netloc cases of `urlsplitD`. -/
def splitFragQuery (rest : List Char) : List Char × List Char × List Char :=
  let (rest2, fragment) :=
    match breakAtChar '#' rest with
    | some (a, b) => (a, b)
    | none => (rest, [])
  let (path, query) :=
    match breakAtChar '?' rest2 with
    | some (a, b) => (a, b)
    | none => (rest2, [])
  (path, query, fragment)

/-- `urllib.parse.urlsplit(url, scheme=defaultScheme)`: lstrip C0
controls/space, remove tab/CR/LF, take the scheme off the front when the
text before the first `:` is a letter followed by scheme characters, then
`//netloc` (raising on an unbalanced bracket or an invalid bracketed
host), then split fragment and query. -/
def urlsplitD (url0 defaultScheme : List Char) : Except Unit SplitUrl :=
  let url := (url0.dropWhile C0ControlOrSpace).filter (fun c => !unsafeURLByte c)
  let (scheme, rest) :=
    match breakAtChar ':' url with
    | some (before, after) =>
        if (match before with
            | c :: _ => c.isAlpha && before.all schemeChar
            | [] => false) then
          (before.map Char.toLower, after)
        else (defaultScheme, url)
    | none => (defaultScheme, url)
  match rest with
  | '/' :: '/' :: r =>
      let netloc := r.takeWhile (fun c => !netlocEnd c)
      let rest2 := r.dropWhile (fun c => !netlocEnd c)
      if ('[' ∈ netloc ∧ ']' ∉ netloc) ∨ (']' ∈ netloc ∧ '[' ∉ netloc) then
        .error ()
      else if '[' ∈ netloc ∧ ']' ∈ netloc
          ∧ isValidBracketedHost (beforeFirst ']' (afterFirst '[' netloc)) = false then
        .error ()
      else
        let (path, query, fragment) := splitFragQuery rest2
        .ok ⟨scheme, netloc, path, query, fragment⟩
  | _ =>
      let (path, query, fragment) := splitFragQuery rest
      .ok ⟨scheme, [], path, query, fragment⟩

/-- `urllib.parse.urlunsplit`. -/
def urlunsplit (u : SplitUrl) : List Char :=
  let url := u.path
  let url :=
    if u.netloc ≠ [] ∨ url.take 2 = ['/', '/'] then
      '/' :: '/' :: (u.netloc ++ (if url ≠ [] ∧ url.take 1 ≠ ['/'] then '/' :: url else url))
    else url
  let url := if u.scheme ≠ [] then u.scheme ++ ':' :: url else url
  let url := if u.query ≠ [] then url ++ '?' :: u.query else url
  if u.fragment ≠ [] then url ++ '#' :: u.fragment else url

/-- `urllib.parse.uses_relative`. -/
def uses_relative : List (List Char) :=
  (["", "ftp", "http", "gopher", "nntp", "imap", "wais", "file", "https",
    "shttp", "mms", "prospero", "rtsp", "rtspu", "sftp", "svn", "svn+ssh",
    "ws", "wss"]).map String.data

/-- `urllib.parse.uses_netloc`. -/
def uses_netloc : List (List Char) :=
  (["", "ftp", "http", "gopher", "nntp", "telnet", "imap", "wais", "file",
    "mms", "https", "shttp", "snews", "prospero", "rtsp", "rtspu", "rsync",
    "svn", "svn+ssh", "sftp", "nfs", "git", "git+ssh", "ws", "wss"]).map String.data

/-- `segments[1:-1] = filter(None, segments[1:-1])`: drop the empty
segments strictly between the first and the last. -/
def filterMiddleNonEmpty : List (List Char) → List (List Char)
  | [] => []
  | [x] => [x]
  | x :: xs =>
      match xs.getLast? with
      | none => [x]
      | some lastSeg => (x :: (xs.dropLast.filter (fun s => s ≠ []))) ++ [lastSeg]

/-- The `..`/`.` resolution loop of `urljoin`. -/
def resolveSegments (segments : List (List Char)) : List (List Char) :=
  segments.foldl
    (fun acc seg =>
      if seg = ['.', '.'] then acc.dropLast
      else if seg = ['.'] then acc
      else acc ++ [seg]) []

/-- `urllib.parse.urljoin(base, url)` at the urlsplit level; a
`ValueError` raised when parsing either argument propagates. -/
def urljoin (base url : List Char) : Except Unit (List Char) :=
  if base = [] then .ok url
  else if url = [] then .ok base
  else do
    let b ← urlsplitD base []
    let u ← urlsplitD url b.scheme
    if u.scheme ≠ b.scheme ∨ u.scheme ∉ uses_relative then .ok url
    else
      let netloc :=
        if u.scheme ∈ uses_netloc then
          (if u.netloc ≠ [] then u.netloc else b.netloc)
        else u.netloc
      if u.scheme ∈ uses_netloc ∧ u.netloc ≠ [] then .ok (urlunsplit u)
      else if u.path = [] then
        .ok (urlunsplit ⟨u.scheme, netloc, b.path,
          (if u.query = [] then b.query else u.query), u.fragment⟩)
      else
        let baseParts := splitOnChar '/' b.path
        let baseParts :=
          if baseParts.getLast? ≠ some [] then baseParts.dropLast else baseParts
        let segments :=
          if u.path.take 1 = ['/'] then splitOnChar '/' u.path
          else filterMiddleNonEmpty (baseParts ++ splitOnChar '/' u.path)
        let resolved := resolveSegments segments
        let resolved :=
          if segments.getLast? = some ['.'] ∨ segments.getLast? = some ['.', '.'] then
            resolved ++ [[]]
          else resolved
        let joined := joinWithChar '/' resolved
        .ok (urlunsplit ⟨u.scheme, netloc, (if joined = [] then ['/'] else joined),
          u.query, u.fragment⟩)

/-- `is_safe_url(target)` of the application: resolve `target` against the
request's `host_url`, accept only `http`/`https` schemes with the netloc
of the current host.  The function has no `try`, so a `ValueError` from
`urlparse`/`urljoin` propagates to the caller (`.error`). -/
def is_safe_url (host_url target : String) : Except Unit Bool := do
  let host ← urlsplitD host_url.data []
  let joined ← urljoin host_url.data target.data
  let redirect_url ← urlsplitD joined []
  pure (decide ((redirect_url.scheme = "http".data ∨ redirect_url.scheme = "https".data)
    ∧ host.netloc = redirect_url.netloc))

/-- Is every character of the string ASCII?  `urlsplit` additionally runs
`_checknetloc`, which can raise only when a netloc contains non-ASCII
characters whose NFKC normalization introduces separators; that check is
not modelled, so theorems about URL handling assume ASCII inputs, where it
is a no-op. -/
def asciiOnly (s : String) : Bool :=
  s.data.all (fun c => c.toNat ≤ 0x7f)

/-- `asciiOnly` lifted to an optional string (`none` passes). -/
def asciiOnlyOpt : Option String → Bool
  | none => true
  | some s => asciiOnly s

/-! ### The login handler (POST branch) -/

/-- POST `/login`: strip the username, reject missing fields or bad
credentials, otherwise log the user in (the returned `Option User` is the
session established by `login_user`) and redirect: to `next` when it is
truthy and safe, to `/crops` otherwise.  `next_page and is_safe_url(...)`
short-circuits, so a falsy `next` never reaches `is_safe_url`; when
`is_safe_url` raises, the exception leaves the handler (the session is
already established by then) and the framework answers with the generic
error page. -/
def loginPost (store : Store)
    (usernameField passwordField nextFormField nextQueryArg : Option String)
    (host_url : String) : WebOut × Option User :=
  let username := strip (usernameField.getD "")
  let password := passwordField.getD ""
  if username = "" || password = "" then
    (⟨[("Please enter username and password", "warning")], .redirect (url_for "login")⟩, none)
  else
    match queryByUsername store username with
    | none =>
        (⟨[("Invalid username or password", "danger")], .redirect (url_for "login")⟩, none)
    | some user =>
        if !check_password_hash user.password password then
          (⟨[("Invalid username or password", "danger")], .redirect (url_for "login")⟩, none)
        else
          let flashes := [("Logged in successfully.", "success")]
          match pyOrOpt nextFormField nextQueryArg with
          | some np =>
              if np = "" then (⟨flashes, .redirect (url_for "crops")⟩, some user)
              else
                match is_safe_url host_url np with
                | .ok true => (⟨flashes, .redirect np⟩, some user)
                | .ok false => (⟨flashes, .redirect (url_for "crops")⟩, some user)
                | .error _ => (⟨flashes, .unhandledError⟩, some user)
          | none => (⟨flashes, .redirect (url_for "crops")⟩, some user)

/-! ### Python `float()` string conversion

`pyFloat` models CPython `float(str)`: strip whitespace, allow one
underscore between any two digits, an optional sign, then either
`inf`/`infinity`/`nan` (case-insensitive) or a decimal literal
`digits [. digits] [e [sign] digits]` with at least one mantissa digit.
Finite values are carried exactly as rationals (the model does not round
to IEEE doubles; no property here depends on rounding). -/

/-- The values `float()` can produce: a finite value, a signed infinity,
or a NaN. -/
inductive PyFloat where
  | finite (val : ℚ)
  | inf (neg : Bool)
  | nan
deriving DecidableEq, Repr

/-- Is the value a finite floating-point number? -/
def PyFloat.isFinite : PyFloat → Bool
  | .finite _ => true
  | _ => false

/-- Remove the underscores of a numeric literal, requiring each to sit
between two digits (CPython rejects the string otherwise); `prev` is the
character just before the current position. -/
def remUnd (prev : Option Char) : List Char → Option (List Char)
  | [] => some []
  | c :: rest =>
      if c = '_' then
        match prev, rest with
        | some p, n :: _ =>
            if p.isDigit && n.isDigit then remUnd (some c) rest else none
        | _, _ => none
      else (remUnd (some c) rest).map (fun r => c :: r)

/-- Parse the optional exponent part and require the end of input:
`[] | e[sign]digits`, scaling the mantissa by the power of ten. -/
def parseExp (m : ℚ) (r : List Char) : Option ℚ :=
  match r with
  | [] => some m
  | e :: r2 =>
      if e = 'e' || e = 'E' then
        let (eneg, r3) :=
          match r2 with
          | '+' :: t => (false, t)
          | '-' :: t => (true, t)
          | _ => (false, r2)
        let ds := r3.takeWhile Char.isDigit
        if ds ≠ [] ∧ r3.dropWhile Char.isDigit = [] then
          some (if eneg then m / (10 : ℚ) ^ digitsVal ds else m * (10 : ℚ) ^ digitsVal ds)
        else none
      else none

/-- Parse an unsigned decimal literal `digits [. digits] [exp]` with at
least one mantissa digit. -/
def parseUnsignedFloat (l : List Char) : Option ℚ :=
  let ip := l.takeWhile Char.isDigit
  let r1 := l.dropWhile Char.isDigit
  match r1 with
  | '.' :: r2 =>
      let fp := r2.takeWhile Char.isDigit
      let r3 := r2.dropWhile Char.isDigit
      if ip = [] ∧ fp = [] then none
      else parseExp ((digitsVal ip : ℚ) + (digitsVal fp : ℚ) / (10 : ℚ) ^ fp.length) r3
  | _ => if ip = [] then none else parseExp (digitsVal ip : ℚ) r1

/-- CPython `float(s)` for a string argument: `none` models a raised
`ValueError`. -/
def pyFloat (s : String) : Option PyFloat :=
  match remUnd none (stripChars s.data) with
  | none => none
  | some l =>
      let (neg, l2) :=
        match l with
        | '+' :: r => (false, r)
        | '-' :: r => (true, r)
        | _ => (false, l)
      let low := l2.map Char.toLower
      if low = "inf".data ∨ low = "infinity".data then some (.inf neg)
      else if low = "nan".data then some .nan
      else (parseUnsignedFloat l2).map
        (fun q => .finite (if neg then -q else q))

/-! ### The prediction adapter -/

/-- The raw output of `model.predict(features)` (a NumPy array), seen
through the operations the application applies to it: `firstStr` is
`str(pred[0])` when indexing succeeds (`none` models a raised error),
`wholeStr` is `str(pred)`, which never raises. -/
structure RawPred where
  firstStr : Option String
  wholeStr : String
deriving DecidableEq, Repr

/-- The label encoder artifact: `inverse_transform` may raise (`.error`),
otherwise returns a list whose first element is taken by `[0]`. -/
structure Encoder where
  inverse_transform : RawPred → Except Unit (List String)

/-- The loaded classifier: a function from the 7-feature row to the raw
prediction array. -/
def ClassifierModel : Type :=
  List PyFloat → RawPred

/-- `safe_inverse_transform(pred)`: try `encoder.inverse_transform(pred)[0]`
when an encoder is loaded, swallowing any exception; then try
`str(pred[0])`; finally `str(pred)`.  Total: it never raises. -/
def safe_inverse_transform (encoder : Option Encoder) (pred : RawPred) : String :=
  let firstTry : Option String :=
    match encoder with
    | none => none
    | some e =>
        match e.inverse_transform pred with
        | .error _ => none
        | .ok l => l.head?
  match firstTry with
  | some s => s
  | none =>
      match pred.firstStr with
      | some s => s
      | none => pred.wholeStr

/-- The module-level `try: model = joblib.load(...) except: ...` block:
a failing load (`.error`, the message being what is printed) leaves the
handle `None`; the process continues either way. -/
def loadModel (r : Except String ClassifierModel) : Option ClassifierModel :=
  match r with
  | .ok m => some m
  | .error _ => none

/-! ### The predict handler -/

/-- The seven submitted form fields of POST `/predict` (a missing field is
`none`). -/
structure PredictForm where
  N : Option String
  P : Option String
  K : Option String
  temperature : Option String
  humidity : Option String
  ph : Option String
  rainfall : Option String
deriving DecidableEq, Repr

/-- `float(request.form.get(name))`: `float(None)` raises, so a missing
field fails like a malformed one. -/
def parseField (o : Option String) : Option PyFloat :=
  o.bind pyFloat

/-- The `try` block of the handler: parse all seven fields in order; the
first failure aborts the block. -/
def parseFeatures (f : PredictForm) : Option (List PyFloat) := do
  let n ← parseField f.N
  let p ← parseField f.P
  let k ← parseField f.K
  let t ← parseField f.temperature
  let h ← parseField f.humidity
  let ph ← parseField f.ph
  let r ← parseField f.rainfall
  pure [n, p, k, t, h, ph, r]

/-- POST `/predict` (behind `login_required`): on a parse failure flash and
redirect back to `/predict`; with no model loaded flash and render the page
without a prediction; otherwise call the classifier and render its label.
The boolean records whether `model.predict` was invoked. -/
def predictPost (model : Option ClassifierModel) (encoder : Option Encoder)
    (form : PredictForm) : WebOut × Bool :=
  match parseFeatures form with
  | none =>
      (⟨[("Please enter valid numeric values.", "danger")], .redirect (url_for "predict")⟩, false)
  | some features =>
      match model with
      | none => (⟨[("Model not loaded.", "danger")], .renderPredict none⟩, false)
      | some m =>
          let raw_pred := m features
          (⟨[], .renderPredict (some (safe_inverse_transform encoder raw_pred))⟩, true)

/-! ### The static crop knowledge base -/

/-- The `CROPS` dictionary of the source, all 22 entries (association list
in the source's insertion order). -/
def CROPS : List (String × CropRecord) :=
  [("apple", ⟨"apple.jpg", "Apple requires cool climates and well-drained soil.", "Loamy, rich in organic matter", "5–20°C", "60–80 cm", "5.5–6.5", "Rich in vitamins and antioxidants.", "Requires chilling hours in winter."⟩),
   ("banana", ⟨"banana.jpg", "Banana grows well in humid tropical climates.", "Rich loamy soil", "20–35°C", "100–250 cm", "6.0–7.0", "High-energy fruit.", "Requires regular irrigation."⟩),
   ("blackgram", ⟨"blackgram.jpg", "Blackgram is an important pulse crop.", "Sandy loam to clay soil", "25–35°C", "60–90 cm", "6.0–7.5", "Rich in protein.", "Grows well during Kharif season."⟩),
   ("chickpea", ⟨"chickpea.jpg", "Chickpea grows best in dry, cool climates.", "Well-drained loam", "10–25°C", "40–60 cm", "6.0–7.0", "Rich in protein and fiber.", "Does not tolerate waterlogging."⟩),
   ("coconut", ⟨"coconut.jpg", "Coconut thrives in coastal and humid climates.", "Sandy loam", "20–30°C", "150–250 cm", "5.0–8.0", "Used for oil, water, food.", "Requires abundant sunlight."⟩),
   ("coffee", ⟨"coffee.jpg", "Coffee requires cool, shaded, high-altitude conditions.", "Well-drained loamy soil", "15–24°C", "150–250 cm", "6.0–6.5", "Popular beverage crop.", "Grows best under shade trees."⟩),
   ("cotton", ⟨"cotton.jpg", "Cotton grows in dry, warm climates with long frost-free periods.", "Black cotton soil", "20–35°C", "50–100 cm", "5.5–7.0", "Used in textile industry.", "Sensitive to excessive rainfall."⟩),
   ("grapes", ⟨"grapes.jpg", "Grapes need dry, warm climates with low humidity.", "Sandy loam", "15–40°C", "75–85 cm", "6.5–7.5", "Used for juice, wine, raisins.", "Requires pruning for good yield."⟩),
   ("jute", ⟨"jute.jpg", "Jute grows well in humid, warm climates.", "Clayey loam", "25–35°C", "150–200 cm", "6.0–7.0", "Used to make strong fibers.", "Requires standing water early on."⟩),
   ("kidneybeans", ⟨"kidneybeans.jpg", "Kidney beans grow in moderate climates.", "Sandy loam", "15–25°C", "60–100 cm", "6.0–7.5", "High protein crop.", "Requires well-drained soil."⟩),
   ("lentil", ⟨"lentil.jpg", "Lentil is a cool-season pulse crop.", "Clay loam", "10–25°C", "30–45 cm", "6.0–8.0", "Rich in protein.", "Drought tolerant."⟩),
   ("maize", ⟨"maize.jpg", "Maize thrives in warm climates and full sunlight.", "Alluvial or black soil", "18–27°C", "50–100 cm", "5.5–7.0", "Used for food, fodder, biofuel.", "Requires irrigation at tasseling stage."⟩),
   ("mango", ⟨"mango.jpg", "Mango grows in warm tropical areas.", "Well-drained loam", "24–30°C", "75–250 cm", "5.5–7.0", "Highly nutritious fruit.", "Prefers dry weather during flowering."⟩),
   ("mothbeans", ⟨"mothbeans.jpg", "Moth beans grow in arid regions.", "Sandy soil", "25–35°C", "20–30 cm", "7.0–8.0", "Rich in protein.", "Extremely drought resistant."⟩),
   ("mungbean", ⟨"mungbean.jpg", "Mungbean is a popular pulse crop.", "Sandy loam", "25–30°C", "50–75 cm", "6.0–7.5", "Used for dal and sprouts.", "Short-duration crop."⟩),
   ("muskmelon", ⟨"muskmelon.jpg", "Muskmelon grows in hot climates.", "Sandy loam", "25–35°C", "40–60 cm", "6.0–7.5", "Sweet, hydrating fruit.", "Requires good drainage."⟩),
   ("orange", ⟨"orange.jpg", "Orange requires subtropical climate.", "Loamy soil", "15–30°C", "75–100 cm", "5.5–6.5", "Rich in vitamin C.", "Requires good irrigation."⟩),
   ("papaya", ⟨"papaya.jpg", "Papaya grows well in tropical and subtropical climates.", "Well-drained loam", "25–35°C", "100–150 cm", "6.5–7.0", "Rich in enzymes.", "Fast-growing fruit crop."⟩),
   ("pigeonpeas", ⟨"pigeonpeas.jpg", "Pigeonpeas grow in semi-arid climates.", "Loamy soil", "20–35°C", "60–100 cm", "6.0–7.0", "Important pulse crop.", "Deep-rooted and drought-resistant."⟩),
   ("pomegranate", ⟨"pomegranate.jpg", "Pomegranate thrives in dry, hot climates.", "Loamy or sandy loam", "25–35°C", "50–100 cm", "5.5–7.5", "Highly nutritious fruit.", "Requires dry climate for fruiting."⟩),
   ("rice", ⟨"rice.jpg", "Rice is a staple food crop grown mainly in warm, humid climates with abundant water.", "Clayey loam or silt loam", "20–35°C", "100–200 cm", "5.0–6.5", "High-calorie grain used worldwide.", "Requires standing water during growth."⟩),
   ("watermelon", ⟨"watermelon.jpg", "Watermelon grows best in hot, dry climates.", "Sandy loam", "25–35°C", "40–60 cm", "6.0–7.5", "Hydrating summer fruit.", "Requires well-drained soil."⟩)]

/-- `image_exists(filename)`: `fs` is the filesystem, a predicate telling
whether `os.path.exists(BASE_DIR/static/images/<name>)` holds; the source
guards with `filename or ""`, which is the identity on the (always
non-`None`) string passed by the crops handler. -/
def image_exists (fs : String → Bool) (filename : String) : Bool :=
  fs (if filename = "" then "" else filename)

/-- The per-record body of the loop in the crops handler: copy the record
and overwrite `img` with the placeholder when the declared image is absent
(`img = vcopy.get("img") or ""` is the record's `img`, every record having
a non-empty one, and `get` never missing). -/
def resolveCrop (fs : String → Bool) (v : CropRecord) : CropRecord :=
  if image_exists fs (if v.img = "" then "" else v.img) then v
  else { v with img := "crop.jpg" }

/-- The `crops_with_images` mapping built by the `/crops` handler. -/
def crops_with_images (fs : String → Bool) : List (String × CropRecord) :=
  CROPS.map (fun kv => (kv.1, resolveCrop fs kv.2))

/-! ### The protected routes (`login_required`)

`flask_login.login_required` sends an unauthenticated request to the
configured `login_view` (here the `login` endpoint) as a redirect; the
authenticated request runs the wrapped view.  `authed` is whether the
request carries a logged-in session. -/

/-- GET `/crops` behind `login_required`. -/
def crops_route (authed : Bool) (fs : String → Bool) : WebOut :=
  if authed then ⟨[], .renderCrops (crops_with_images fs)⟩
  else ⟨[], .redirect (url_for "login")⟩

/-- `/predict` behind `login_required`: `form? = some f` is a POST with
fields `f`, `form? = none` a GET.  The boolean records whether
`model.predict` was invoked. -/
def predict_route (authed : Bool) (model : Option ClassifierModel)
    (encoder : Option Encoder) (form? : Option PredictForm) : WebOut × Bool :=
  if authed then
    match form? with
    | some form => predictPost model encoder form
    | none => (⟨[], .renderPredict none⟩, false)
  else (⟨[], .redirect (url_for "login")⟩, false)

/-- GET `/logout` behind `login_required`: destroy the session and
redirect home. -/
def logout_route (authed : Bool) : WebOut :=
  if authed then ⟨[("Logged out.", "info")], .redirect (url_for "home")⟩
  else ⟨[], .redirect (url_for "login")⟩

/-! ### Concrete instances used to exercise the theorems -/

/-- A concrete classifier used to instantiate theorems on examples. -/
def constClassifier : ClassifierModel :=
  fun _ => ⟨some "rice", "['rice']"⟩

/-- A filesystem in which only the placeholder image exists. -/
def onlyPlaceholderFs : String → Bool :=
  fun s => s == "crop.jpg"

/-- The first record of `CROPS`, used to instantiate the image-fallback
theorem. -/
def appleRecord : CropRecord :=
  ⟨"apple.jpg", "Apple requires cool climates and well-drained soil.",
   "Loamy, rich in organic matter", "5–20°C", "60–80 cm", "5.5–6.5",
   "Rich in vitamins and antioxidants.", "Requires chilling hours in winter."⟩

/-! ### Shared lemmas -/

/-- Behaviour of the fallback-image resolution on a record with a
non-empty declared image, for an arbitrary filesystem containing the
placeholder. -/
theorem resolveCrop_cases (fs : String → Bool) (v : CropRecord) (hv : v.img ≠ "")
    (hph : fs "crop.jpg" = true) :
    (image_exists fs v.img = true → resolveCrop fs v = v)
    ∧ (image_exists fs v.img = false → (resolveCrop fs v).img = "crop.jpg")
    ∧ fs ((resolveCrop fs v).img) = true := by
  unfold resolveCrop image_exists
  rw [if_neg hv]
  cases h : fs v.img <;> simp [image_exists, hv, h, hph]

/-! ### Claim C1 -/

/-- Claim C1, counterexample: the claim says `register` rejects the
password `"abc"` (too short, no uppercase, no digit, no symbol); in fact
registering a fresh username with password `"abc"` succeeds and creates
the user row. -/
theorem C1_counterexample :
    registerPost [] (some "user1") (some "abc") =
      (⟨[("Registered. Please login.", "success")], .redirect (url_for "login")⟩,
       [⟨0, "user1", generate_password_hash "abc"⟩]) := by decide

/-- Claim C1, amended: `register` applies no password-content policy at
all.  It rejects only a missing (empty after stripping) username, a
missing password, or a duplicate username; any non-empty password is
accepted for a fresh username — in particular `"abc"`,
`"alllowercase1!"` and `"Passw0rd!"` are all accepted, as is a password
equal to the username. -/
theorem C1_register_no_password_policy (store : Store) (u p : String)
    (hu : strip u ≠ "") (hp : p ≠ "")
    (hfresh : queryByUsername store (strip u) = none) :
    registerPost store (some u) (some p) =
      (⟨[("Registered. Please login.", "success")], .redirect (url_for "login")⟩,
       store ++ [⟨store.length, strip u, generate_password_hash p⟩])
    ∧ (registerPost [] (some "user2") (some "alllowercase1!")).2 =
        [⟨0, "user2", generate_password_hash "alllowercase1!"⟩]
    ∧ (registerPost [] (some "user3") (some "Passw0rd!")).2 =
        [⟨0, "user3", generate_password_hash "Passw0rd!"⟩]
    ∧ (registerPost [] (some "bob") (some "bob")).2 =
        [⟨0, "bob", generate_password_hash "bob"⟩] := by
  exact ⟨by simp [registerPost, hu, hp, hfresh], by decide, by decide, by decide⟩

/-- Witness for `C1_register_no_password_policy` at a concrete input. -/
theorem C1_register_no_password_policy_witness :
    registerPost [] (some "alice") (some "abc") =
      (⟨[("Registered. Please login.", "success")], .redirect (url_for "login")⟩,
       [⟨0, "alice", generate_password_hash "abc"⟩]) :=
  ((C1_register_no_password_policy [] "alice" "abc" (by decide) (by decide) rfl).1).trans
    (by decide)

/-! ### Claim C2 -/

/-- Claim C2, counterexample: the claim says the model is invoked only
when all seven fields parse as finite floating-point numbers; in fact
`float("inf")` succeeds in Python, the value is not finite, and the model
is invoked anyway. -/
theorem C2_counterexample :
    (predict_route true (some constClassifier) none
        (some ⟨some "inf", some "42", some "43", some "20.8", some "82",
               some "6.5", some "202.9"⟩)).2 = true
    ∧ pyFloat "inf" = some (PyFloat.inf false)
    ∧ (PyFloat.inf false).isFinite = false := by decide

/-- Claim C2, amended: the classifier is invoked iff all seven submitted
fields parse as floating-point values — finite or not, since `float()`
accepts `inf`/`nan` — and on any parse failure the handler flashes
"Please enter valid numeric values.", redirects back to `/predict`, and
never calls the model. -/
theorem C2_predict_parse_gate (m : ClassifierModel) (encoder : Option Encoder)
    (form : PredictForm) :
    ((predictPost (some m) encoder form).2 = true ↔ (parseFeatures form).isSome = true)
    ∧ (parseFeatures form = none →
        predictPost (some m) encoder form =
          (⟨[("Please enter valid numeric values.", "danger")],
            .redirect (url_for "predict")⟩, false)) := by
  cases h : parseFeatures form <;> simp [predictPost, h]

/-- Witness for `C2_predict_parse_gate`: `N=abc` yields the invalid-input
flash and redirect with no model invocation. -/
theorem C2_predict_parse_gate_witness :
    predictPost (some constClassifier) none
        ⟨some "abc", some "42", some "43", some "21", some "82", some "7", some "203"⟩ =
      (⟨[("Please enter valid numeric values.", "danger")],
        .redirect (url_for "predict")⟩, false) :=
  (C2_predict_parse_gate constClassifier none _).2 (by decide)

/-! ### Claim C3 -/

/-- Claim C3, counterexample: the claim says that whenever the supplied
target is unsafe or absent the logged-in response redirects to `/crops`;
but `urlparse` raises `ValueError` on the unbalanced bracket of
`next=http://[`, `is_safe_url` and the handler have no `try`, so a
valid-credential login with that target answers with the framework's
generic error page — neither following the target nor redirecting to
`/crops` (the session is established before the exception). -/
theorem C3_counterexample :
    loginPost [⟨0, "alice", generate_password_hash "pw"⟩] (some "alice") (some "pw")
        (some "http://[") none "http://localhost:5000/" =
      (⟨[("Logged in successfully.", "success")], .unhandledError⟩,
       some ⟨0, "alice", generate_password_hash "pw"⟩)
    ∧ Resp.unhandledError ≠ Resp.redirect (url_for "crops")
    ∧ Resp.unhandledError ≠ Resp.redirect "http://[" := by decide

/-- Claim C3, amended: after a successful login with an ASCII host URL
and `next` value (the scope in which the unmodelled NFKC-based
`_checknetloc` never raises), a truthy `next` target is followed exactly
when `is_safe_url` accepts it — the target resolved against the host URL
has scheme `http`/`https` and the host's netloc, after `urlsplit`'s
tab/CR/LF removal — and a falsy or rejected target falls back to a
`/crops` redirect, except that a target on which URL resolution raises
`ValueError` (an unbalanced or invalid bracketed host, e.g.
`next=http://[`) makes the exception propagate to the generic error page
instead, with the session already established.  Concretely
`next=http://evil.example/x` and its tab-obfuscated variant are rejected
(never followed) while `next=/crops` is accepted. -/
theorem C3_next_redirect_safety (store : Store) (u p host : String)
    (nF nQ : Option String) (user : User)
    (hu : strip u ≠ "") (hp : p ≠ "")
    (hq : queryByUsername store (strip u) = some user)
    (hpw : check_password_hash user.password p = true)
    (hhost : asciiOnly host = true)
    (hnF : asciiOnlyOpt nF = true) (hnQ : asciiOnlyOpt nQ = true) :
    loginPost store (some u) (some p) nF nQ host =
      (⟨[("Logged in successfully.", "success")],
        match pyOrOpt nF nQ with
        | some np =>
            if np = "" then Resp.redirect (url_for "crops")
            else
              match is_safe_url host np with
              | .ok true => Resp.redirect np
              | .ok false => Resp.redirect (url_for "crops")
              | .error _ => Resp.unhandledError
        | none => Resp.redirect (url_for "crops")⟩, some user)
    ∧ is_safe_url "http://localhost:5000/" "http://evil.example/x" = .ok false
    ∧ is_safe_url "http://localhost:5000/" "ht\ttp://evil.example/x" = .ok false
    ∧ is_safe_url "http://localhost:5000/" "/crops" = .ok true
    ∧ is_safe_url "http://localhost:5000/" "http://[" = .error () := by
  refine ⟨?_, by decide, by decide, by decide, by decide⟩
  simp only [loginPost, Option.getD_some, hq]
  rw [if_neg (by simp [hu, hp])]
  simp only [hpw, Bool.not_true, Bool.false_eq_true, if_false]
  cases pyOrOpt nF nQ with
  | none => rfl
  | some np =>
      dsimp only
      by_cases h0 : np = ""
      · simp [h0]
      · rw [if_neg h0, if_neg h0]
        cases is_safe_url host np with
        | error e => rfl
        | ok b => cases b <;> rfl

/-- Witness for `C3_next_redirect_safety`: with valid credentials,
`next=http://evil.example/x` falls back to `/crops` and `next=/crops` is
followed. -/
theorem C3_next_redirect_safety_witness :
    loginPost [⟨0, "alice", generate_password_hash "pw"⟩] (some "alice") (some "pw")
        (some "http://evil.example/x") none "http://localhost:5000/" =
      (⟨[("Logged in successfully.", "success")], .redirect (url_for "crops")⟩,
       some ⟨0, "alice", generate_password_hash "pw"⟩)
    ∧ loginPost [⟨0, "alice", generate_password_hash "pw"⟩] (some "alice") (some "pw")
        (some "/crops") none "http://localhost:5000/" =
      (⟨[("Logged in successfully.", "success")], .redirect "/crops"⟩,
       some ⟨0, "alice", generate_password_hash "pw"⟩) := by
  have h1 := C3_next_redirect_safety [⟨0, "alice", generate_password_hash "pw"⟩]
      "alice" "pw" "http://localhost:5000/" (some "http://evil.example/x") none
      ⟨0, "alice", generate_password_hash "pw"⟩ (by decide) (by decide) (by decide)
      (by decide) (by decide) (by decide) (by decide)
  have h2 := C3_next_redirect_safety [⟨0, "alice", generate_password_hash "pw"⟩]
      "alice" "pw" "http://localhost:5000/" (some "/crops") none
      ⟨0, "alice", generate_password_hash "pw"⟩ (by decide) (by decide) (by decide)
      (by decide) (by decide) (by decide) (by decide)
  exact ⟨h1.1.trans (by decide), h2.1.trans (by decide)⟩

/-! ### Claim C4 -/

/-- Claim C4, counterexample: the claim promises success on the first
attempt for every username; the empty username (a username, and absent
from the empty store) is rejected on the first attempt with no row
created. -/
theorem C4_counterexample :
    registerPost [] (some "") (some "x") =
      (⟨[("Provide username and password", "warning")], .redirect (url_for "register")⟩,
       []) := by decide

/-- Claim C4, amended: for every username whose stripped form is
non-empty and not in the store, and every non-empty password, the first
registration succeeds (exactly one row with that username appended) and
the second is rejected as a duplicate with no second row created. -/
theorem C4_register_twice (store : Store) (u p : String)
    (hu : strip u ≠ "") (hp : p ≠ "")
    (hfresh : queryByUsername store (strip u) = none) :
    ∃ row : User, row.username = strip u
      ∧ registerPost store (some u) (some p) =
          (⟨[("Registered. Please login.", "success")], .redirect (url_for "login")⟩,
           store ++ [row])
      ∧ registerPost (store ++ [row]) (some u) (some p) =
          (⟨[("User exists, login instead.", "warning")], .redirect (url_for "login")⟩,
           store ++ [row]) := by
  refine ⟨⟨store.length, strip u, generate_password_hash p⟩, rfl,
    by simp [registerPost, hu, hp, hfresh], ?_⟩
  have hfind : queryByUsername
      (store ++ [⟨store.length, strip u, generate_password_hash p⟩]) (strip u) =
      some ⟨store.length, strip u, generate_password_hash p⟩ := by
    unfold queryByUsername at *
    rw [List.find?_append, hfresh]
    simp [List.find?]
  simp [registerPost, hu, hp, hfind]

/-- Witness for `C4_register_twice` at a concrete input. -/
theorem C4_register_twice_witness :
    ∃ row : User, row.username = strip "carol"
      ∧ registerPost [] (some "carol") (some "pw") =
          (⟨[("Registered. Please login.", "success")], .redirect (url_for "login")⟩,
           [] ++ [row])
      ∧ registerPost ([] ++ [row]) (some "carol") (some "pw") =
          (⟨[("User exists, login instead.", "warning")], .redirect (url_for "login")⟩,
           [] ++ [row]) :=
  C4_register_twice [] "carol" "pw" (by decide) (by decide) rfl

/-! ### Claim C5 -/

/-- Claim C5, counterexample: a duplicate-username registration error
redirects to the login page, not back to the originating register form,
and a model-unavailable error renders the predict page directly instead
of redirecting. -/
theorem C5_counterexample :
    (registerPost [⟨0, "bob", generate_password_hash "pw"⟩] (some "bob")
        (some "LongPass1!")).1 =
      ⟨[("User exists, login instead.", "warning")], .redirect (url_for "login")⟩
    ∧ url_for "login" ≠ url_for "register"
    ∧ (predictPost none none
        ⟨some "90", some "42", some "43", some "21", some "82", some "7", some "203"⟩).1.resp =
      .renderPredict none := by decide

/-- Claim C5, amended: every user-facing error flashes one message and
changes no state; the missing-field errors of both forms, the
invalid-credentials error and the invalid-input error redirect back to
the originating page, while a duplicate-username error redirects to the
login page and a model-unavailable error renders the predict page
directly without a redirect. -/
theorem C5_error_responses :
    (∀ store uF pF, (strip (uF.getD "") = "" ∨ pF.getD "" = "") →
       registerPost store uF pF =
         (⟨[("Provide username and password", "warning")],
           .redirect (url_for "register")⟩, store))
    ∧ (∀ store uF pF, (queryByUsername store (strip (uF.getD ""))).isSome = true →
         strip (uF.getD "") ≠ "" → pF.getD "" ≠ "" →
         registerPost store uF pF =
           (⟨[("User exists, login instead.", "warning")],
             .redirect (url_for "login")⟩, store))
    ∧ (∀ store uF pF nF nQ host, (strip (uF.getD "") = "" ∨ pF.getD "" = "") →
         loginPost store uF pF nF nQ host =
           (⟨[("Please enter username and password", "warning")],
             .redirect (url_for "login")⟩, none))
    ∧ (∀ store uF pF nF nQ host, strip (uF.getD "") ≠ "" → pF.getD "" ≠ "" →
         (∀ user, queryByUsername store (strip (uF.getD "")) = some user →
            check_password_hash user.password (pF.getD "") = false) →
         loginPost store uF pF nF nQ host =
           (⟨[("Invalid username or password", "danger")],
             .redirect (url_for "login")⟩, none))
    ∧ (∀ model encoder form, parseFeatures form = none →
         predictPost model encoder form =
           (⟨[("Please enter valid numeric values.", "danger")],
             .redirect (url_for "predict")⟩, false))
    ∧ (∀ encoder form feats, parseFeatures form = some feats →
         predictPost none encoder form =
           (⟨[("Model not loaded.", "danger")], .renderPredict none⟩, false)) := by
  refine ⟨?_, ?_, ?_, ?_, ?_, ?_⟩
  · intro store uF pF h
    unfold registerPost
    rw [if_pos (by simp [h])]
  · intro store uF pF hdup hu hp
    unfold registerPost
    rw [if_neg (by simp [hu, hp]), if_pos hdup]
  · intro store uF pF nF nQ host h
    unfold loginPost
    rw [if_pos (by simp [h])]
  · intro store uF pF nF nQ host hu hp hbad
    unfold loginPost
    rw [if_neg (by simp [hu, hp])]
    cases hq : queryByUsername store (strip (uF.getD "")) with
    | none => rfl
    | some user => simp [hbad user hq]
  · intro model encoder form h
    simp [predictPost, h]
  · intro encoder form feats h
    simp [predictPost, h]

/-- Witness for `C5_error_responses`, one concrete request per error
kind. -/
theorem C5_error_responses_witness :
    registerPost [] (some " ") (some "pw") =
      (⟨[("Provide username and password", "warning")],
        .redirect (url_for "register")⟩, [])
    ∧ registerPost [⟨0, "dan", generate_password_hash "pw"⟩] (some "dan") (some "x") =
        (⟨[("User exists, login instead.", "warning")], .redirect (url_for "login")⟩,
         [⟨0, "dan", generate_password_hash "pw"⟩])
    ∧ loginPost [] (some "frank") none none none "http://localhost:5000/" =
        (⟨[("Please enter username and password", "warning")],
          .redirect (url_for "login")⟩, none)
    ∧ loginPost [] (some "eve") (some "pw") none none "http://localhost:5000/" =
        (⟨[("Invalid username or password", "danger")], .redirect (url_for "login")⟩, none)
    ∧ predictPost (some constClassifier) none
        ⟨some "abc", some "42", some "43", some "21", some "82", some "7", some "203"⟩ =
        (⟨[("Please enter valid numeric values.", "danger")],
          .redirect (url_for "predict")⟩, false)
    ∧ predictPost none none
        ⟨some "90", some "42", some "43", some "21", some "82", some "7", some "203"⟩ =
        (⟨[("Model not loaded.", "danger")], .renderPredict none⟩, false) := by
  have h := C5_error_responses
  refine ⟨h.1 [] (some " ") (some "pw") (Or.inl (by decide)),
    h.2.1 [⟨0, "dan", generate_password_hash "pw"⟩] (some "dan") (some "x")
      (by decide) (by decide) (by decide),
    h.2.2.1 [] (some "frank") none none none "http://localhost:5000/"
      (Or.inr (by decide)),
    h.2.2.2.1 [] (some "eve") (some "pw") none none "http://localhost:5000/"
      (by decide) (by decide) ?_,
    h.2.2.2.2.1 (some constClassifier) none _ (by decide),
    h.2.2.2.2.2 none _
      [.finite 90, .finite 42, .finite 43, .finite 21, .finite 82, .finite 7, .finite 203]
      (by decide)⟩
  intro user hx
  simp [queryByUsername, List.find?] at hx

/-! ### Claim C6 -/

/-- Claim C6: when the encoder is absent, or its inverse mapping raises,
label resolution falls back to `str(pred[0])` when indexing succeeds and
to `str(pred)` otherwise; `safe_inverse_transform` is a total function of
its inputs, so it never raises. -/
theorem C6_encoder_fallback (encoder : Option Encoder) (pred : RawPred)
    (h : encoder = none
         ∨ ∃ e, encoder = some e ∧ e.inverse_transform pred = .error ()) :
    safe_inverse_transform encoder pred =
      (match pred.firstStr with
       | some s => s
       | none => pred.wholeStr) := by
  rcases h with h | ⟨e, he, herr⟩
  · subst h; rfl
  · subst he; simp [safe_inverse_transform, herr]

/-- Witness for `C6_encoder_fallback` with no encoder loaded. -/
theorem C6_encoder_fallback_witness :
    safe_inverse_transform none ⟨some "rice", "['rice']"⟩ = "rice" :=
  (C6_encoder_fallback none ⟨some "rice", "['rice']"⟩ (Or.inl rfl)).trans (by decide)

/-! ### Claim C7 -/

/-- Claim C7: a failed model load leaves the handle `None` without
crashing (the load wrapper is total and returns `none` on any error), and
an authenticated POST to `/predict` with parseable inputs then flashes
"Model not loaded." and renders the predict page with no prediction and
no model invocation. -/
theorem C7_model_unavailable (e : String) (encoder : Option Encoder)
    (form : PredictForm) (feats : List PyFloat)
    (hparse : parseFeatures form = some feats) :
    loadModel (.error e) = none
    ∧ predict_route true (loadModel (.error e)) encoder (some form) =
        (⟨[("Model not loaded.", "danger")], .renderPredict none⟩, false) :=
  ⟨rfl, by simp [predict_route, predictPost, loadModel, hparse]⟩

/-- Witness for `C7_model_unavailable` at a concrete failing load and
parseable form. -/
theorem C7_model_unavailable_witness :
    loadModel (.error "could not load model") = none
    ∧ predict_route true (loadModel (.error "could not load model")) none
        (some ⟨some "90", some "42", some "43", some "21", some "82", some "7", some "203"⟩) =
      (⟨[("Model not loaded.", "danger")], .renderPredict none⟩, false) :=
  C7_model_unavailable "could not load model" none
    ⟨some "90", some "42", some "43", some "21", some "82", some "7", some "203"⟩
    [.finite 90, .finite 42, .finite 43, .finite 21, .finite 82, .finite 7, .finite 203]
    (by decide)

/-! ### Claim C8 -/

/-- Claim C8: every unauthenticated request to `/crops`, `/predict` or
`/logout` is answered by the same redirect to the login page — the answer
does not depend on the filesystem, the model, the encoder or the form, so
repetitions are rejected identically, and no crop data or prediction is
ever rendered. -/
theorem C8_protected_routes (fs fs2 : String → Bool)
    (model : Option ClassifierModel) (encoder : Option Encoder)
    (form? : Option PredictForm) :
    crops_route false fs = ⟨[], .redirect (url_for "login")⟩
    ∧ predict_route false model encoder form? = (⟨[], .redirect (url_for "login")⟩, false)
    ∧ logout_route false = ⟨[], .redirect (url_for "login")⟩
    ∧ crops_route false fs = crops_route false fs2 :=
  ⟨rfl, rfl, rfl, rfl⟩

/-! ### Claim C9 -/

/-- Claim C9: each record rendered by `/crops` keeps its declared image
when the file exists and is rewritten to the placeholder `crop.jpg` when
it does not, so — the asset store containing the placeholder, as the spec
guarantees — no rendered record references an absent file. -/
theorem C9_image_fallback (fs : String → Bool) (hph : fs "crop.jpg" = true) :
    crops_with_images fs = CROPS.map (fun kv => (kv.1, resolveCrop fs kv.2))
    ∧ ∀ kv ∈ CROPS,
        ((image_exists fs kv.2.img = true → resolveCrop fs kv.2 = kv.2)
         ∧ (image_exists fs kv.2.img = false → (resolveCrop fs kv.2).img = "crop.jpg")
         ∧ fs ((resolveCrop fs kv.2).img) = true) := by
  refine ⟨rfl, ?_⟩
  have himg : ∀ kv ∈ CROPS, kv.2.img ≠ "" := by decide
  intro kv hkv
  exact resolveCrop_cases fs kv.2 (himg kv hkv) hph

/-- Witness for `C9_image_fallback` on a filesystem holding only the
placeholder: the apple record's declared image is absent, the rendered
record resolves to `crop.jpg`, and that file exists. -/
theorem C9_image_fallback_witness :
    (resolveCrop onlyPlaceholderFs appleRecord).img = "crop.jpg"
    ∧ onlyPlaceholderFs ((resolveCrop onlyPlaceholderFs appleRecord).img) = true := by
  have h := (C9_image_fallback onlyPlaceholderFs (by decide)).2
    ("apple", appleRecord) (by decide)
  exact ⟨h.2.1 (by decide), h.2.2⟩

/-! ### Claim C10 -/

/-- Claim C10: both `register` and `login` strip surrounding whitespace
from the submitted username but use the password verbatim: a registration
whose username differs only in surrounding whitespace hits the same
account and is rejected as a duplicate, while login succeeds exactly when
the stripped username matches and the password is equal character for
character. -/
theorem C10_strip_username_verbatim_password (u₁ u₂ p q host : String)
    (h₁ : strip u₁ ≠ "") (hp : p ≠ "") (hq : q ≠ "") :
    (registerPost [] (some u₁) (some p)).2 =
      [⟨0, strip u₁, generate_password_hash p⟩]
    ∧ (strip u₂ = strip u₁ →
        registerPost [⟨0, strip u₁, generate_password_hash p⟩] (some u₂) (some q) =
          (⟨[("User exists, login instead.", "warning")], .redirect (url_for "login")⟩,
           [⟨0, strip u₁, generate_password_hash p⟩]))
    ∧ ((loginPost [⟨0, strip u₁, generate_password_hash p⟩] (some u₂) (some q)
          none none host).2.isSome = true ↔ (strip u₂ = strip u₁ ∧ q = p)) := by
  refine ⟨by simp [registerPost, queryByUsername, h₁, hp], ?_, ?_⟩
  · intro h2
    simp [registerPost, queryByUsername, h₁, hp, hq, h2, List.find?]
  · by_cases hq0 : q = ""
    · exact absurd hq0 hq
    · by_cases h2 : strip u₂ = strip u₁
      · by_cases h3 : q = p
        · simp [loginPost, queryByUsername, check_password_hash, generate_password_hash,
            h₁, hp, hq0, h2, h3, pyOrOpt, List.find?]
        · have h3' : p ≠ q := fun h => h3 h.symm
          simp [loginPost, queryByUsername, check_password_hash, generate_password_hash,
            h₁, hp, hq0, h2, h3, h3', pyOrOpt, List.find?]
      · have h2' : ¬ (strip u₁ = strip u₂) := fun h => h2 h.symm
        simp [loginPost, queryByUsername, check_password_hash, generate_password_hash,
          h₁, hp, hq0, h2, h2', pyOrOpt, List.find?]
        split <;> rfl

/-- Witness for `C10_strip_username_verbatim_password`: `" bob "` hits the
account of `"bob"`, while a password differing only in a leading space
does not authenticate. -/
theorem C10_strip_username_verbatim_password_witness :
    (registerPost [] (some "bob") (some "top secret")).2 =
      [⟨0, strip "bob", generate_password_hash "top secret"⟩]
    ∧ registerPost [⟨0, strip "bob", generate_password_hash "top secret"⟩]
        (some " bob ") (some " top secret") =
        (⟨[("User exists, login instead.", "warning")], .redirect (url_for "login")⟩,
         [⟨0, strip "bob", generate_password_hash "top secret"⟩])
    ∧ ((loginPost [⟨0, strip "bob", generate_password_hash "top secret"⟩]
          (some " bob ") (some " top secret") none none
          "http://localhost:5000/").2.isSome = true ↔
        (strip " bob " = strip "bob" ∧ " top secret" = "top secret")) := by
  have h := C10_strip_username_verbatim_password "bob" " bob " "top secret" " top secret"
      "http://localhost:5000/" (by decide) (by decide) (by decide)
  exact ⟨h.1, h.2.1 (by decide), h.2.2⟩

end FarmEasy
